import Mathlib

/-!
Shallow embedding of the TariffTaxIQ economic calculation engine
(frontend/src/utils/calculations.js and components/Calculator.jsx).

The repository contains two copies of the engine: a plain copy with no
input validation (calculations.js lines 11-90, also re-exported in the
tariff-tax app) and a defensive copy of the same functions with guards
and clamping (lines 115-325).  Both are embedded here, the plain copy in
namespace `Plain` and the defensive copy in namespace `Defensive`.

JavaScript numbers are modelled as rationals.  The `typeof x !== 'number'`
guards of the defensive copy are vacuous in this embedding (every argument
is a number) and are dropped.  A JavaScript division whose divisor is zero
yields NaN or a signed infinity; where a claim probes that case (the
pass-through derivation) the division is modelled by `jsDiv`, which
returns `none` for a non-finite result.
-/

/-- ElasticityPair of the data model: demand elasticity (typically
negative) and supply elasticity (typically positive) of a product. -/
structure Elasticity where
  demand : ℚ
  supply : ℚ
deriving DecidableEq

/-- JavaScript division: when the divisor is zero the result is NaN
(0/0) or a signed infinity (x/0, x nonzero), modelled as `none`. -/
def jsDiv (a b : ℚ) : Option ℚ :=
  if b = 0 then none else some (a / b)

namespace Plain

/-- Embeds calculatePassThrough (plain copy, calculations.js lines 11-15):
if (!product) return 0; else (supply / (supply + Math.abs(demand))) * 100.
The argument is `none` when no product is supplied. -/
def calculatePassThrough : Option Elasticity → Option ℚ
  | none => some 0
  | some e => (jsDiv e.supply (e.supply + |e.demand|)).map (fun q => q * 100)

/-- Embeds calculateImportCost (plain copy, lines 36-38):
retailPrice / (1 + markupPercent / 100).  At markupPercent = −100 the
JavaScript result is a signed infinity; every theorem below about this
function assumes markupPercent > −100, so that case is never reached. -/
def calculateImportCost (retailPrice markupPercent : ℚ) : ℚ :=
  retailPrice / (1 + markupPercent / 100)

/-- Embeds calculateTariffAmount (plain copy, lines 46-48). -/
def calculateTariffAmount (importCost tariffRate : ℚ) : ℚ :=
  importCost * (tariffRate / 100)

/-- Embeds calculateTariffPassed (plain copy, lines 56-58): no clamping. -/
def calculateTariffPassed (tariffAmount passThroughRate : ℚ) : ℚ :=
  tariffAmount * (passThroughRate / 100)

/-- Embeds calculateFuturePrice (plain copy, lines 66-68). -/
def calculateFuturePrice (retailPrice tariffPassed : ℚ) : ℚ :=
  retailPrice + tariffPassed

/-- Embeds calculateTariffTaxPercentage (plain copy, lines 77-79):
futurePrice > 0 ? (tariffPassed / futurePrice) * 100 : 0. -/
def calculateTariffTaxPercentage (tariffPassed futurePrice : ℚ) : ℚ :=
  if 0 < futurePrice then (tariffPassed / futurePrice) * 100 else 0

/-- Embeds calculateInventoryImpact (plain copy, lines 88-90): no clamping. -/
def calculateInventoryImpact (inventoryMonths priceIncrease : ℚ) : ℚ :=
  priceIncrease * (1 - inventoryMonths / 12)

end Plain

namespace Defensive

/-- Embeds calculatePassThrough (defensive copy, lines 115-126): returns 0
for a missing product or missing elasticity (both modelled as `none`),
otherwise the same incidence formula as the plain copy. -/
def calculatePassThrough : Option Elasticity → Option ℚ
  | none => some 0
  | some e => (jsDiv e.supply (e.supply + |e.demand|)).map (fun q => q * 100)

/-- Embeds calculateImportCost (defensive copy, lines 171-182):
returns 0 when retailPrice <= 0 or markupPercent <= −100, otherwise
retailPrice / (1 + markupPercent / 100). -/
def calculateImportCost (retailPrice markupPercent : ℚ) : ℚ :=
  if retailPrice ≤ 0 then 0
  else if markupPercent ≤ -100 then 0
  else retailPrice / (1 + markupPercent / 100)

/-- Embeds calculateTariffAmount (defensive copy, lines 200-208):
returns 0 when importCost < 0 or tariffRate < 0. -/
def calculateTariffAmount (importCost tariffRate : ℚ) : ℚ :=
  if importCost < 0 ∨ tariffRate < 0 then 0
  else importCost * (tariffRate / 100)

/-- Embeds calculateTariffPassed (defensive copy, lines 227-238):
returns 0 when tariffAmount < 0, otherwise clamps the rate to [0,100]
via Math.max(0, Math.min(100, passThroughRate)) before applying. -/
def calculateTariffPassed (tariffAmount passThroughRate : ℚ) : ℚ :=
  if tariffAmount < 0 then 0
  else tariffAmount * (max 0 (min 100 passThroughRate) / 100)

/-- Embeds calculateFuturePrice (defensive copy, lines 256-264): on a
negative input returns retailPrice || 0, which over the rationals equals
retailPrice (0 || 0 is 0); otherwise retailPrice + tariffPassed. -/
def calculateFuturePrice (retailPrice tariffPassed : ℚ) : ℚ :=
  if retailPrice < 0 ∨ tariffPassed < 0 then retailPrice
  else retailPrice + tariffPassed

/-- Embeds calculateTariffTaxPercentage (defensive copy, lines 283-291):
returns 0 when futurePrice <= 0 or tariffPassed < 0. -/
def calculateTariffTaxPercentage (tariffPassed futurePrice : ℚ) : ℚ :=
  if futurePrice ≤ 0 ∨ tariffPassed < 0 then 0
  else (tariffPassed / futurePrice) * 100

/-- Embeds calculateInventoryImpact (defensive copy, lines 314-325): on a
negative priceIncrease returns priceIncrease || 0, which over the
rationals equals priceIncrease; otherwise clamps months to [0,12]. -/
def calculateInventoryImpact (inventoryMonths priceIncrease : ℚ) : ℚ :=
  if priceIncrease < 0 then priceIncrease
  else priceIncrease * (1 - max 0 (min 12 inventoryMonths) / 12)

end Defensive

namespace Calculator

/-- Embeds calculatedPassThrough (Calculator.jsx lines 112-128): returns
the default 75 when no product is selected or the selected product
carries no elasticity data (both modelled as `none`), otherwise
(supply / (supply + Math.abs(demand))) * 100 over the elasticity pair. -/
def calculatedPassThrough : Option Elasticity → Option ℚ
  | none => some 75
  | some e => (jsDiv e.supply (e.supply + |e.demand|)).map (fun q => q * 100)

/-- CalculationResult record produced by the calculations useMemo of
Calculator.jsx (lines 136-154). -/
structure Results where
  importCost : ℚ
  tariffAmount : ℚ
  tariffPassed : ℚ
  futurePrice : ℚ
  tariffTaxPct : ℚ
  inventoryAdjustedIncrease : ℚ
  priceIncreasePercent : ℚ
deriving DecidableEq

end Calculator

/-- Embeds the calculations useMemo of Calculator.jsx (lines 136-154)
composed with the plain copy of the engine: importCost → tariffAmount →
tariffPassed → futurePrice → tariffTaxPct → inventoryAdjustedIncrease. -/
def calculationsPlain (retailPrice retailMarkup tariffRate customPassThrough inventoryBuffer : ℚ) :
    Calculator.Results :=
  let importCost := Plain.calculateImportCost retailPrice retailMarkup
  let tariffAmount := Plain.calculateTariffAmount importCost tariffRate
  let tariffPassed := Plain.calculateTariffPassed tariffAmount customPassThrough
  let futurePrice := Plain.calculateFuturePrice retailPrice tariffPassed
  let tariffTaxPct := Plain.calculateTariffTaxPercentage tariffPassed futurePrice
  let inventoryAdjustedIncrease := Plain.calculateInventoryImpact inventoryBuffer tariffPassed
  { importCost := importCost
    tariffAmount := tariffAmount
    tariffPassed := tariffPassed
    futurePrice := futurePrice
    tariffTaxPct := tariffTaxPct
    inventoryAdjustedIncrease := inventoryAdjustedIncrease
    priceIncreasePercent := tariffPassed / retailPrice * 100 }

/-- Embeds the same calculations useMemo composed with the defensive copy
of the engine. -/
def calculationsDefensive (retailPrice retailMarkup tariffRate customPassThrough inventoryBuffer : ℚ) :
    Calculator.Results :=
  let importCost := Defensive.calculateImportCost retailPrice retailMarkup
  let tariffAmount := Defensive.calculateTariffAmount importCost tariffRate
  let tariffPassed := Defensive.calculateTariffPassed tariffAmount customPassThrough
  let futurePrice := Defensive.calculateFuturePrice retailPrice tariffPassed
  let tariffTaxPct := Defensive.calculateTariffTaxPercentage tariffPassed futurePrice
  let inventoryAdjustedIncrease := Defensive.calculateInventoryImpact inventoryBuffer tariffPassed
  { importCost := importCost
    tariffAmount := tariffAmount
    tariffPassed := tariffPassed
    futurePrice := futurePrice
    tariffTaxPct := tariffTaxPct
    inventoryAdjustedIncrease := inventoryAdjustedIncrease
    priceIncreasePercent := tariffPassed / retailPrice * 100 }

/-- C1 counterexample: with no product supplied, the engine's pass-through
derivation calculatePassThrough (plain copy, invoked exactly so from the
tariff-tax App.jsx when no product is selected) returns 0, not the fixed
default 75 the claim states. -/
theorem C1_counterexample :
    Plain.calculatePassThrough none = some 0 ∧
    Plain.calculatePassThrough none ≠ some 75 := by
  constructor
  · rfl
  · decide

/-- C1 amended: the component-level derivation calculatedPassThrough of
Calculator.jsx returns the fixed default 75 when no elasticity data is
available, but the engine-level calculatePassThrough (both copies of
calculations.js) returns 0 in that case; when an elasticity pair with a
nonzero denominator is available every derivation returns
supply / (supply + abs demand) * 100. -/
theorem C1_pass_through_derivation (d s : ℚ) (hden : s + |d| ≠ 0) :
    Calculator.calculatedPassThrough none = some 75 ∧
    Plain.calculatePassThrough none = some 0 ∧
    Defensive.calculatePassThrough none = some 0 ∧
    Calculator.calculatedPassThrough (some ⟨d, s⟩) = some (s / (s + |d|) * 100) ∧
    Plain.calculatePassThrough (some ⟨d, s⟩) = some (s / (s + |d|) * 100) ∧
    Defensive.calculatePassThrough (some ⟨d, s⟩) = some (s / (s + |d|) * 100) := by
  refine ⟨rfl, rfl, rfl, ?_, ?_, ?_⟩ <;>
    simp [Calculator.calculatedPassThrough, Plain.calculatePassThrough,
      Defensive.calculatePassThrough, jsDiv, hden]

/-- C1 witness: the amended statement instantiated at the spec's example
elasticity pair demand = −2, supply = 1.5. -/
theorem C1_pass_through_derivation_witness :
    ((3:ℚ)/2 + |(-2:ℚ)| ≠ 0) ∧
    (Calculator.calculatedPassThrough none = some 75 ∧
     Plain.calculatePassThrough none = some 0 ∧
     Defensive.calculatePassThrough none = some 0 ∧
     Calculator.calculatedPassThrough (some ⟨-2, 3/2⟩) = some ((3:ℚ)/2 / ((3:ℚ)/2 + |(-2:ℚ)|) * 100) ∧
     Plain.calculatePassThrough (some ⟨-2, 3/2⟩) = some ((3:ℚ)/2 / ((3:ℚ)/2 + |(-2:ℚ)|) * 100) ∧
     Defensive.calculatePassThrough (some ⟨-2, 3/2⟩) = some ((3:ℚ)/2 / ((3:ℚ)/2 + |(-2:ℚ)|) * 100)) :=
  ⟨by norm_num, C1_pass_through_derivation (-2) (3/2) (by norm_num)⟩

/-- C2 counterexample: at markupPercent = −100 (and likewise at
retailPrice = 0) the defensive calculateImportCost returns the plain
number 0 — the computation succeeds with a silent 0 and no InvalidInput
failure is produced, contrary to the claim. -/
theorem C2_counterexample :
    Defensive.calculateImportCost 100 (-100) = 0 ∧
    Defensive.calculateImportCost 0 50 = 0 := by
  constructor <;> decide

/-- C2 amended: calculateImportCost returns
retailPrice / (1 + markupPercent/100) when retailPrice > 0 and
markupPercent > −100; when retailPrice <= 0 it returns 0, and when
markupPercent <= −100 (including exactly −100) it returns 0 — in every
case an ordinary number is returned and no InvalidInput error is raised
or reported. -/
theorem C2_import_cost_guards (r m r' m' : ℚ) (hr : 0 < r) (hm : -100 < m)
    (hr' : r' ≤ 0) (hm' : m' ≤ -100) :
    Defensive.calculateImportCost r m = r / (1 + m / 100) ∧
    Defensive.calculateImportCost r' m = 0 ∧
    Defensive.calculateImportCost r m' = 0 := by
  unfold Defensive.calculateImportCost
  refine ⟨?_, ?_, ?_⟩
  · rw [if_neg (by linarith), if_neg (by linarith)]
  · rw [if_pos hr']
  · rw [if_neg (by linarith), if_pos hm']

/-- C2 witness: the amended statement instantiated at
retailPrice = 100, markupPercent = 50, and the invalid inputs
retailPrice = 0 and markupPercent = −100. -/
theorem C2_import_cost_guards_witness :
    ((0:ℚ) < 100 ∧ (-100:ℚ) < 50 ∧ (0:ℚ) ≤ 0 ∧ (-100:ℚ) ≤ -100) ∧
    (Defensive.calculateImportCost 100 50 = 100 / (1 + 50 / 100) ∧
     Defensive.calculateImportCost 0 50 = 0 ∧
     Defensive.calculateImportCost 100 (-100) = 0) :=
  ⟨by norm_num,
   C2_import_cost_guards 100 50 0 (-100) (by norm_num) (by norm_num)
     (by norm_num) (by norm_num)⟩

/-- C3 counterexample: with both elasticity components zero, both copies
of calculatePassThrough compute 0/0, a NaN (modelled `none`), and
propagate it — no InvalidElasticity failure exists in the code. -/
theorem C3_counterexample :
    Plain.calculatePassThrough (some ⟨0, 0⟩) = none ∧
    Defensive.calculatePassThrough (some ⟨0, 0⟩) = none := by
  constructor <;>
    simp [Plain.calculatePassThrough, Defensive.calculatePassThrough, jsDiv]

/-- C3 amended: whenever the supply elasticity and the absolute demand
elasticity are both zero, the pass-through derivation (every copy,
including the Calculator component's) divides 0 by 0 and returns NaN to
its caller; no InvalidElasticity error is raised. -/
theorem C3_zero_elasticity_nan (e : Elasticity) (hs : e.supply = 0)
    (hd : |e.demand| = 0) :
    Plain.calculatePassThrough (some e) = none ∧
    Defensive.calculatePassThrough (some e) = none ∧
    Calculator.calculatedPassThrough (some e) = none := by
  have hden : e.supply + |e.demand| = 0 := by rw [hs, hd]; norm_num
  refine ⟨?_, ?_, ?_⟩ <;>
    simp [Plain.calculatePassThrough, Defensive.calculatePassThrough,
      Calculator.calculatedPassThrough, jsDiv, hden]

/-- C3 witness: the amended statement instantiated at the elasticity
pair demand = 0, supply = 0. -/
theorem C3_zero_elasticity_nan_witness :
    ((Elasticity.mk 0 0).supply = 0 ∧ |(Elasticity.mk 0 0).demand| = 0) ∧
    (Plain.calculatePassThrough (some ⟨0, 0⟩) = none ∧
     Defensive.calculatePassThrough (some ⟨0, 0⟩) = none ∧
     Calculator.calculatedPassThrough (some ⟨0, 0⟩) = none) :=
  ⟨by norm_num, C3_zero_elasticity_nan ⟨0, 0⟩ rfl (by norm_num)⟩

/-- C4: zero-tariff identity.  For every valid input (retailPrice > 0,
markupPercent > −100) with tariffRatePercent = 0, the composed pipeline
of Calculator.jsx — with either copy of the engine — yields
tariffAmount = 0, tariffPassed = 0, futurePrice = retailPrice and
tariffTaxPct = 0. -/
theorem C4_zero_tariff_identity (r m pt inv : ℚ) (hr : 0 < r) (hm : -100 < m) :
    (calculationsPlain r m 0 pt inv).tariffAmount = 0 ∧
    (calculationsPlain r m 0 pt inv).tariffPassed = 0 ∧
    (calculationsPlain r m 0 pt inv).futurePrice = r ∧
    (calculationsPlain r m 0 pt inv).tariffTaxPct = 0 ∧
    (calculationsDefensive r m 0 pt inv).tariffAmount = 0 ∧
    (calculationsDefensive r m 0 pt inv).tariffPassed = 0 ∧
    (calculationsDefensive r m 0 pt inv).futurePrice = r ∧
    (calculationsDefensive r m 0 pt inv).tariffTaxPct = 0 := by
  have hden : (0:ℚ) < 1 + m / 100 := by linarith
  have hicpos : 0 < r / (1 + m / 100) := div_pos hr hden
  have hic : Defensive.calculateImportCost r m = r / (1 + m / 100) := by
    unfold Defensive.calculateImportCost
    rw [if_neg (by linarith), if_neg (by linarith)]
  have hta : Defensive.calculateTariffAmount (r / (1 + m / 100)) 0 = 0 := by
    unfold Defensive.calculateTariffAmount
    rw [if_neg (by rintro (h | h) <;> linarith)]
    norm_num
  have htp : Defensive.calculateTariffPassed 0 pt = 0 := by
    unfold Defensive.calculateTariffPassed
    rw [if_neg (by norm_num)]
    exact zero_mul _
  have hfp : Defensive.calculateFuturePrice r 0 = r := by
    unfold Defensive.calculateFuturePrice
    rw [if_neg (by rintro (h | h) <;> linarith)]
    exact add_zero r
  have htx : Defensive.calculateTariffTaxPercentage 0 r = 0 := by
    unfold Defensive.calculateTariffTaxPercentage
    rw [if_neg (by rintro (h | h) <;> linarith)]
    norm_num
  have hptx : Plain.calculateTariffTaxPercentage 0 r = 0 := by
    unfold Plain.calculateTariffTaxPercentage
    rw [if_pos hr]
    norm_num
  refine ⟨?_, ?_, ?_, ?_, ?_, ?_, ?_, ?_⟩ <;>
    simp [calculationsPlain, calculationsDefensive, Plain.calculateImportCost,
      Plain.calculateTariffAmount, Plain.calculateTariffPassed,
      Plain.calculateFuturePrice, hic, hta, htp, hfp, htx, hptx]

/-- C4 witness: the identity instantiated at retailPrice = 100,
markupPercent = 50, passThrough = 75, inventoryBuffer = 3. -/
theorem C4_zero_tariff_identity_witness :
    ((0:ℚ) < 100 ∧ (-100:ℚ) < 50) ∧
    ((calculationsPlain 100 50 0 75 3).tariffAmount = 0 ∧
     (calculationsPlain 100 50 0 75 3).tariffPassed = 0 ∧
     (calculationsPlain 100 50 0 75 3).futurePrice = 100 ∧
     (calculationsPlain 100 50 0 75 3).tariffTaxPct = 0 ∧
     (calculationsDefensive 100 50 0 75 3).tariffAmount = 0 ∧
     (calculationsDefensive 100 50 0 75 3).tariffPassed = 0 ∧
     (calculationsDefensive 100 50 0 75 3).futurePrice = 100 ∧
     (calculationsDefensive 100 50 0 75 3).tariffTaxPct = 0) :=
  ⟨by norm_num, C4_zero_tariff_identity 100 50 75 3 (by norm_num) (by norm_num)⟩

/-- C5: markup inversion round-trip.  For all retailPrice > 0 and
markupPercent > −100, calculateImportCost (either copy) multiplied back
by (1 + markupPercent/100) recovers retailPrice exactly over the
rationals. -/
theorem C5_markup_inversion (r m : ℚ) (hr : 0 < r) (hm : -100 < m) :
    Plain.calculateImportCost r m * (1 + m / 100) = r ∧
    Defensive.calculateImportCost r m * (1 + m / 100) = r := by
  have hdenpos : (0:ℚ) < 1 + m / 100 := by linarith
  have hden : (1:ℚ) + m / 100 ≠ 0 := ne_of_gt hdenpos
  constructor
  · unfold Plain.calculateImportCost
    exact div_mul_cancel₀ r hden
  · unfold Defensive.calculateImportCost
    rw [if_neg (by linarith), if_neg (by linarith)]
    exact div_mul_cancel₀ r hden

/-- C5 witness: the round-trip instantiated at retailPrice = 100,
markupPercent = 50. -/
theorem C5_markup_inversion_witness :
    ((0:ℚ) < 100 ∧ (-100:ℚ) < 50) ∧
    (Plain.calculateImportCost 100 50 * (1 + 50 / 100) = 100 ∧
     Defensive.calculateImportCost 100 50 * (1 + 50 / 100) = 100) :=
  ⟨by norm_num, C5_markup_inversion 100 50 (by norm_num) (by norm_num)⟩

/-- C6: for every tariffAmount >= 0 and every rate (also outside [0,100]),
the defensive calculateTariffPassed equals
tariffAmount * (clamp(rate, 0, 100) / 100), and at rate = 100 it returns
exactly tariffAmount. -/
theorem C6_tariff_passed_clamp (ta pt : ℚ) (hta : 0 ≤ ta) :
    Defensive.calculateTariffPassed ta pt = ta * (max 0 (min 100 pt) / 100) ∧
    Defensive.calculateTariffPassed ta 100 = ta := by
  constructor
  · unfold Defensive.calculateTariffPassed
    rw [if_neg (not_lt.mpr hta)]
  · unfold Defensive.calculateTariffPassed
    rw [if_neg (not_lt.mpr hta), min_self,
      max_eq_right (by norm_num : (0:ℚ) ≤ 100)]
    ring

/-- C6 witness: instantiated at tariffAmount = 10 with the out-of-range
rate 250 and with rate = 100. -/
theorem C6_tariff_passed_clamp_witness :
    ((0:ℚ) ≤ 10) ∧
    (Defensive.calculateTariffPassed 10 250 = 10 * (max 0 (min 100 250) / 100) ∧
     Defensive.calculateTariffPassed 10 100 = 10) :=
  ⟨by norm_num, C6_tariff_passed_clamp 10 250 (by norm_num)⟩

/-- C7: for every inventoryBufferMonths (also outside [0,12]) and every
fullPriceIncrease >= 0, the defensive calculateInventoryImpact equals
fullPriceIncrease * (1 - clamp(months, 0, 12) / 12); 0 months yields the
full increase and 12 months yields 0. -/
theorem C7_inventory_clamp (inv fpi : ℚ) (hfpi : 0 ≤ fpi) :
    Defensive.calculateInventoryImpact inv fpi = fpi * (1 - max 0 (min 12 inv) / 12) ∧
    Defensive.calculateInventoryImpact 0 fpi = fpi ∧
    Defensive.calculateInventoryImpact 12 fpi = 0 := by
  refine ⟨?_, ?_, ?_⟩
  · unfold Defensive.calculateInventoryImpact
    rw [if_neg (not_lt.mpr hfpi)]
  · unfold Defensive.calculateInventoryImpact
    rw [if_neg (not_lt.mpr hfpi), min_eq_right (by norm_num : (0:ℚ) ≤ 12),
      max_self]
    ring
  · unfold Defensive.calculateInventoryImpact
    rw [if_neg (not_lt.mpr hfpi), min_self,
      max_eq_right (by norm_num : (0:ℚ) ≤ 12)]
    ring

/-- C7 witness: instantiated at fullPriceIncrease = 8 with the
out-of-range buffer 30 months and the extremes 0 and 12. -/
theorem C7_inventory_clamp_witness :
    ((0:ℚ) ≤ 8) ∧
    (Defensive.calculateInventoryImpact 30 8 = 8 * (1 - max 0 (min 12 30) / 12) ∧
     Defensive.calculateInventoryImpact 0 8 = 8 ∧
     Defensive.calculateInventoryImpact 12 8 = 0) :=
  ⟨by norm_num, C7_inventory_clamp 30 8 (by norm_num)⟩

/-- C8: for all inputs, calculateTariffTaxPercentage (plain copy, whose
ternary guard the claim quotes) returns (tariffPassed / futurePrice) * 100
when futurePrice > 0 and 0 otherwise, so the division is only ever taken
with a positive divisor. -/
theorem C8_tariff_tax_guard (tp fp : ℚ) :
    (0 < fp → Plain.calculateTariffTaxPercentage tp fp = tp / fp * 100) ∧
    (fp ≤ 0 → Plain.calculateTariffTaxPercentage tp fp = 0) := by
  constructor
  · intro h
    unfold Plain.calculateTariffTaxPercentage
    rw [if_pos h]
  · intro h
    unfold Plain.calculateTariffTaxPercentage
    rw [if_neg (not_lt.mpr h)]

/-- C8 witness: instantiated at tariffPassed = 50 with futurePrice = 200
(positive branch) and futurePrice = −3 (guarded branch). -/
theorem C8_tariff_tax_guard_witness :
    Plain.calculateTariffTaxPercentage 50 200 = 50 / 200 * 100 ∧
    Plain.calculateTariffTaxPercentage 50 (-3) = 0 :=
  ⟨(C8_tariff_tax_guard 50 200).1 (by norm_num),
   (C8_tariff_tax_guard 50 (-3)).2 (by norm_num)⟩

/-- C9: for every elasticity pair with supply > 0 and demand < 0, the
derived pass-through rate supply / (supply + abs demand) * 100 is
returned (the denominator is nonzero) and lies strictly between 0
and 100. -/
theorem C9_passthrough_strict_bounds (d s : ℚ) (hs : 0 < s) (hd : d < 0) :
    Plain.calculatePassThrough (some ⟨d, s⟩) = some (s / (s + |d|) * 100) ∧
    0 < s / (s + |d|) * 100 ∧ s / (s + |d|) * 100 < 100 := by
  have habs : |d| = -d := abs_of_neg hd
  have habspos : 0 < |d| := by rw [habs]; linarith
  have hden : 0 < s + |d| := by linarith
  refine ⟨?_, ?_, ?_⟩
  · simp [Plain.calculatePassThrough, jsDiv, hden.ne']
  · exact mul_pos (div_pos hs hden) (by norm_num)
  · have h1 : s / (s + |d|) < 1 := (div_lt_one hden).mpr (by linarith)
    have h2 := mul_lt_mul_of_pos_right h1 (show (0:ℚ) < 100 by norm_num)
    linarith

/-- C9 witness: instantiated at the spec's example pair demand = −2,
supply = 1.5. -/
theorem C9_passthrough_strict_bounds_witness :
    ((0:ℚ) < 3/2 ∧ (-2:ℚ) < 0) ∧
    (Plain.calculatePassThrough (some ⟨-2, 3/2⟩) = some ((3:ℚ)/2 / ((3:ℚ)/2 + |(-2:ℚ)|) * 100) ∧
     0 < (3:ℚ)/2 / ((3:ℚ)/2 + |(-2:ℚ)|) * 100 ∧
     (3:ℚ)/2 / ((3:ℚ)/2 + |(-2:ℚ)|) * 100 < 100) :=
  ⟨by norm_num, C9_passthrough_strict_bounds (-2) (3/2) (by norm_num) (by norm_num)⟩

/-- C10: on the documented valid ranges, the plain and the defensive
copies of the six engine functions agree: retailPrice > 0,
markupPercent > −100, importCost >= 0, tariffRate >= 0,
tariffAmount >= 0, passThroughRate in [0,100], tariffPassed >= 0,
futurePrice > 0, inventoryBufferMonths in [0,12],
fullPriceIncrease >= 0. -/
theorem C10_variant_equivalence (r m ic tr ta pt tp fp inv fpi : ℚ)
    (hr : 0 < r) (hm : -100 < m) (hic : 0 ≤ ic) (htr : 0 ≤ tr)
    (hta : 0 ≤ ta) (hpt0 : 0 ≤ pt) (hpt1 : pt ≤ 100) (htp : 0 ≤ tp)
    (hfp : 0 < fp) (hinv0 : 0 ≤ inv) (hinv1 : inv ≤ 12) (hfpi : 0 ≤ fpi) :
    Plain.calculateImportCost r m = Defensive.calculateImportCost r m ∧
    Plain.calculateTariffAmount ic tr = Defensive.calculateTariffAmount ic tr ∧
    Plain.calculateTariffPassed ta pt = Defensive.calculateTariffPassed ta pt ∧
    Plain.calculateFuturePrice r tp = Defensive.calculateFuturePrice r tp ∧
    Plain.calculateTariffTaxPercentage tp fp = Defensive.calculateTariffTaxPercentage tp fp ∧
    Plain.calculateInventoryImpact inv fpi = Defensive.calculateInventoryImpact inv fpi := by
  refine ⟨?_, ?_, ?_, ?_, ?_, ?_⟩
  · unfold Plain.calculateImportCost Defensive.calculateImportCost
    rw [if_neg (by linarith), if_neg (by linarith)]
  · unfold Plain.calculateTariffAmount Defensive.calculateTariffAmount
    rw [if_neg (by rintro (h | h) <;> linarith)]
  · unfold Plain.calculateTariffPassed Defensive.calculateTariffPassed
    rw [if_neg (not_lt.mpr hta), min_eq_right hpt1, max_eq_right hpt0]
  · unfold Plain.calculateFuturePrice Defensive.calculateFuturePrice
    rw [if_neg (by rintro (h | h) <;> linarith)]
  · unfold Plain.calculateTariffTaxPercentage Defensive.calculateTariffTaxPercentage
    rw [if_pos hfp, if_neg (by rintro (h | h) <;> linarith)]
  · unfold Plain.calculateInventoryImpact Defensive.calculateInventoryImpact
    rw [if_neg (not_lt.mpr hfpi), min_eq_right hinv1, max_eq_right hinv0]

/-- C10 witness: the equivalence instantiated at the spec's first
concrete scenario (retailPrice 100, markup 50, tariff 25, pass-through
75, inventory 3 and the derived dollar amounts). -/
theorem C10_variant_equivalence_witness :
    ((0:ℚ) < 100 ∧ (-100:ℚ) < 50 ∧ (0:ℚ) ≤ 20 ∧ (0:ℚ) ≤ 25 ∧ (0:ℚ) ≤ 16 ∧
     (0:ℚ) ≤ 75 ∧ (75:ℚ) ≤ 100 ∧ (0:ℚ) ≤ 12 ∧ (0:ℚ) < 112 ∧
     (0:ℚ) ≤ 3 ∧ (3:ℚ) ≤ 12 ∧ (0:ℚ) ≤ 12) ∧
    (Plain.calculateImportCost 100 50 = Defensive.calculateImportCost 100 50 ∧
     Plain.calculateTariffAmount 20 25 = Defensive.calculateTariffAmount 20 25 ∧
     Plain.calculateTariffPassed 16 75 = Defensive.calculateTariffPassed 16 75 ∧
     Plain.calculateFuturePrice 100 12 = Defensive.calculateFuturePrice 100 12 ∧
     Plain.calculateTariffTaxPercentage 12 112 = Defensive.calculateTariffTaxPercentage 12 112 ∧
     Plain.calculateInventoryImpact 3 12 = Defensive.calculateInventoryImpact 3 12) :=
  ⟨by norm_num,
   C10_variant_equivalence 100 50 20 25 16 75 12 112 3 12
     (by norm_num) (by norm_num) (by norm_num) (by norm_num) (by norm_num)
     (by norm_num) (by norm_num) (by norm_num) (by norm_num) (by norm_num)
     (by norm_num) (by norm_num)⟩
